import Mathlib

/-!
Shallow embedding of src/scripts/generate_jwt.py.

The script reads two positional command-line arguments (an application
identifier and a path to a PEM private-key file), reads the key file,
builds the claims dictionary with iat set to the current integer Unix
time, exp set to iat + 600 and iss set to the app id, signs it with
RS256 via jwt.encode, and prints the line JWT=<token>.

The embedding makes every effect explicit: the argument vector is a
list of strings (index 0 is the script name, as in sys.argv), the file
system is a function from paths to Option String (none models a path
that does not exist, is unreadable, or is a directory, all of which
make open/read raise), and the clock is the integer timestamp captured
once by int(time.time()).  The RSA primitive of the jwt library is a
parameter: a key parser (none models every way the key text can fail
to be a valid RSA private key) and a deterministic RS256 signing
function over bytes, which is what RSASSA-PKCS1-v1_5 with SHA-256 is.
The compact serialization of jwt.encode (JSON payload, base64url
segments joined by dots) is implemented concretely below.
-/

namespace GenerateJwt

/-- The error taxonomy of the spec.  In the Python source each of these
is an uncaught exception: IndexError for a missing argument, OSError for
an unreadable key file, and the jwt library's key errors for an invalid
key.  An uncaught exception terminates the process with exit status 1,
prints nothing further to stdout and writes a traceback to stderr. -/
inductive Err where
  | argumentError
  | fileAccessError
  | signingError
deriving DecidableEq, Repr

/-- Abstract RSA primitive supplied by the jwt library: parsing the PEM
text into key material of some type K, and the deterministic RS256
signature over the bytes of the signing input. -/
structure Crypto (K : Type) where
  parseKey : String → Option K
  rs256Sign : K → List Nat → List Nat

/-- The claims dictionary built by the source:
\x7b'iat': iat, 'exp': exp, 'iss': app_id\x7d. -/
structure Claims where
  iat : Nat
  exp : Nat
  iss : String
deriving DecidableEq, Repr

/-- Lines 15-18 of the source: iat = int(time.time()); exp = iat + 600;
claims are built from that single wall-clock capture. -/
def claimsOf (app_id : String) (now : Nat) : Claims :=
  ⟨now, now + 600, app_id⟩

/-- Lower-case hexadecimal digit, as json.dumps uses for escapes. -/
def hexDigit (n : Nat) : Char :=
  "0123456789abcdef".data.getD n '0'

/-- Four hexadecimal digits of a code unit below 2^16. -/
def hex4 (n : Nat) : List Char :=
  [hexDigit (n / 4096 % 16), hexDigit (n / 256 % 16),
   hexDigit (n / 16 % 16), hexDigit (n % 16)]

/-- JSON string escaping of one character as json.dumps performs it with
its default ensure_ascii=True: quote, backslash and the short control
escapes, other characters outside the printable ASCII range as \uXXXX
(a surrogate pair above U+FFFF), every other character verbatim. -/
def jsonEscapeChar (ch : Char) : List Char :=
  let n := ch.toNat
  if ch = '\x22' then ['\\', '\x22']
  else if ch = '\\' then ['\\', '\\']
  else if ch = '\n' then ['\\', 'n']
  else if ch = '\t' then ['\\', 't']
  else if ch = '\x0d' then ['\\', 'r']
  else if n = 8 then ['\\', 'b']
  else if n = 12 then ['\\', 'f']
  else if n < 32 ∨ 127 ≤ n then
    if n < 65536 then '\\' :: 'u' :: hex4 n
    else ('\\' :: 'u' :: hex4 (55296 + (n - 65536) / 1024)) ++
         ('\\' :: 'u' :: hex4 (56320 + (n - 65536) % 1024))
  else [ch]

/-- A JSON string literal: the escaped characters between quotes. -/
def jsonString (s : String) : String :=
  "\x22" ++ (s.data.flatMap jsonEscapeChar).asString ++ "\x22"

/-- json.dumps of the claims dictionary with the compact separators the
jwt library uses, keys in the insertion order of the source dict. -/
def payloadJson (p : Claims) : String :=
  "\x7b\x22iat\x22:" ++ toString p.iat ++ ",\x22exp\x22:" ++ toString p.exp ++
    ",\x22iss\x22:" ++ jsonString p.iss ++ "\x7d"

/-- The jwt library's JOSE header for algorithm RS256; the library
serializes it with sorted keys. -/
def headerJson : String :=
  "\x7b\x22alg\x22:\x22RS256\x22,\x22typ\x22:\x22JWT\x22\x7d"

/-- UTF-8 encoding of one character as a list of byte values. -/
def utf8Bytes (ch : Char) : List Nat :=
  let n := ch.toNat
  if n < 128 then [n]
  else if n < 2048 then [192 + n / 64, 128 + n % 64]
  else if n < 65536 then [224 + n / 4096, 128 + n / 64 % 64, 128 + n % 64]
  else [240 + n / 262144, 128 + n / 4096 % 64, 128 + n / 64 % 64, 128 + n % 64]

/-- UTF-8 encoding of a string as a list of byte values. -/
def strBytes (s : String) : List Nat :=
  s.data.flatMap utf8Bytes

/-- The 64-character base64url alphabet. -/
def b64Alphabet : List Char :=
  "ABCDEFGHIJKLMNOPQRSTUVWXYZabcdefghijklmnopqrstuvwxyz0123456789-_".data

/-- Character for one 6-bit group. -/
def b64Char (n : Nat) : Char :=
  b64Alphabet.getD n 'A'

/-- Unpadded base64url encoding of a byte list, as
base64.urlsafe_b64encode followed by stripping the = padding, which is
what the jwt library emits for each token segment. -/
def b64 : List Nat → List Char
  | [] => []
  | [b1] => [b64Char (b1 / 4), b64Char (b1 % 4 * 16)]
  | [b1, b2] => [b64Char (b1 / 4), b64Char (b1 % 4 * 16 + b2 / 16),
                 b64Char (b2 % 16 * 4)]
  | b1 :: b2 :: b3 :: rest =>
      b64Char (b1 / 4) :: b64Char (b1 % 4 * 16 + b2 / 16) ::
      b64Char (b2 % 16 * 4 + b3 / 64) :: b64Char (b3 % 64) :: b64 rest

/-- One token segment: base64url of the given bytes, as a string. -/
def encodeSegment (bs : List Nat) : String :=
  (b64 bs).asString

/-- The signing input of the compact serialization: base64url header,
a dot, base64url payload. -/
def signingInput (p : Claims) : String :=
  encodeSegment (strBytes headerJson) ++ "." ++
    encodeSegment (strBytes (payloadJson p))

/-- jwt.encode(payload, private_key, algorithm='RS256'): parse the key
text; on failure the library raises (modelled as Err.signingError);
on success return signing input, a dot, and the base64url signature. -/
def jwtEncode {K : Type} (c : Crypto K) (payload : Claims)
    (private_key : String) : Except Err String :=
  match c.parseKey private_key with
  | none => .error .signingError
  | some k =>
      .ok (signingInput payload ++ "." ++
        encodeSegment (c.rs256Sign k (strBytes (signingInput payload))))

/-- Observable outcome of one process run: exit status, everything
written to standard output, everything written to standard error. -/
structure RunResult where
  exitCode : Nat
  stdout : String
  stderr : String
deriving DecidableEq, Repr

/-- The diagnostic an uncaught exception writes to standard error
(the Python traceback; only its non-emptiness matters below). -/
def errMessage : Err → String
  | .argumentError => "IndexError: list index out of range"
  | .fileAccessError => "OSError: key file missing, unreadable or a directory"
  | .signingError => "jwt.exceptions.InvalidKeyError: not a valid RSA private key"

/-- A run killed by the uncaught exception e: status 1, empty stdout,
traceback on stderr. -/
def failRun (e : Err) : RunResult :=
  ⟨1, "", errMessage e⟩

/-- The main function of the source, line by line.  argv is sys.argv
(index 0 the script name).  app_id = sys.argv[1] and
key_path = sys.argv[2] raise IndexError when absent; open/read of the
key path raises OSError when the file system refuses it; jwt.encode
raises when the key text is invalid; otherwise the script prints the
single line JWT=<token>. -/
def main {K : Type} (c : Crypto K) (argv : List String)
    (fs : String → Option String) (now : Nat) : RunResult :=
  match argv[1]? with
  | none => failRun .argumentError
  | some app_id =>
    match argv[2]? with
    | none => failRun .argumentError
    | some key_path =>
      match fs key_path with
      | none => failRun .fileAccessError
      | some private_key =>
        match jwtEncode c (claimsOf app_id now) private_key with
        | .error e => failRun e
        | .ok token => ⟨0, "JWT=" ++ token ++ "\n", ""⟩

/-- A concrete instantiation of the RSA primitive used to evaluate the
model on closed inputs: key material is Unit, exactly one PEM text
parses, and the signature is the input bytes themselves. -/
def demoCrypto : Crypto Unit :=
  ⟨fun s => if s = "PEMKEY" then some () else none, fun _ bs => bs⟩

/-- A concrete argument vector. -/
def demoArgv : List String :=
  ["generate_jwt.py", "Iv1.abc123", "key.pem"]

/-- A concrete file system holding exactly the demo key file. -/
def demoFs : String → Option String :=
  fun p => if p = "key.pem" then some "PEMKEY" else none

/-! Helper lemmas about the base64url segments and the failure runs. -/

theorem b64Char_mem (n : Nat) : b64Char n ∈ b64Alphabet := by
  by_cases h : n < b64Alphabet.length
  · rw [b64Char, List.getD_eq_getElem _ _ h]
    exact List.getElem_mem h
  · rw [b64Char, List.getD_eq_default _ _ (Nat.le_of_not_lt h)]
    decide

theorem b64_mem (ch : Char) : ∀ bs : List Nat, ch ∈ b64 bs → ch ∈ b64Alphabet := by
  intro bs h
  induction bs using b64.induct with
  | case1 => simp [b64] at h
  | case2 b1 => simp [b64] at h; rcases h with h | h <;> (subst h; exact b64Char_mem _)
  | case3 b1 b2 =>
      simp [b64] at h; rcases h with h | h | h <;> (subst h; exact b64Char_mem _)
  | case4 b1 b2 b3 rest ih =>
      simp [b64] at h
      rcases h with h | h | h | h | h
      · subst h; exact b64Char_mem _
      · subst h; exact b64Char_mem _
      · subst h; exact b64Char_mem _
      · subst h; exact b64Char_mem _
      · exact ih h

theorem dot_not_in_alphabet : '.' ∉ b64Alphabet := by decide

theorem newline_not_in_alphabet : '\n' ∉ b64Alphabet := by decide

theorem count_dot_b64 (bs : List Nat) : (b64 bs).count '.' = 0 := by
  rw [List.count_eq_zero]
  intro h
  exact dot_not_in_alphabet (b64_mem _ bs h)

theorem newline_not_mem_b64 (bs : List Nat) : '\n' ∉ b64 bs := by
  intro h
  exact newline_not_in_alphabet (b64_mem _ bs h)

theorem token_data (p : Claims) (sig : List Nat) :
    (signingInput p ++ "." ++ encodeSegment sig).data =
      b64 (strBytes headerJson) ++ '.' ::
        (b64 (strBytes (payloadJson p)) ++ '.' :: b64 sig) := by
  simp [signingInput, encodeSegment, String.data_append]
  rfl

theorem token_count_dot (p : Claims) (sig : List Nat) :
    (signingInput p ++ "." ++ encodeSegment sig).data.count '.' = 2 := by
  rw [token_data]
  simp [List.count_append, List.count_cons, count_dot_b64]

theorem token_no_newline (p : Claims) (sig : List Nat) :
    '\n' ∉ (signingInput p ++ "." ++ encodeSegment sig).data := by
  rw [token_data]
  simp [newline_not_mem_b64]

theorem errMessage_ne_empty (e : Err) : errMessage e ≠ "" := by
  cases e <;> decide

/-! Theorems settling the claims. -/

/-- C1: for every successfully generated token the payload embedded in
the printed token is the claims set built from the single wall-clock
capture now, whose expiry minus issued-at is exactly 600 seconds. -/
theorem token_lifetime_600 {K : Type} (c : Crypto K) (argv : List String)
    (fs : String → Option String) (now : Nat) (a p key : String) (k : K)
    (h1 : argv[1]? = some a) (h2 : argv[2]? = some p)
    (h3 : fs p = some key) (h4 : c.parseKey key = some k) :
    (claimsOf a now).exp - (claimsOf a now).iat = 600 ∧
    (claimsOf a now).iat = now ∧
    ∃ sigSeg : String,
      (main c argv fs now).stdout =
        "JWT=" ++ (encodeSegment (strBytes headerJson) ++ "." ++
          encodeSegment (strBytes (payloadJson (claimsOf a now))) ++ "." ++
          sigSeg) ++ "\n" := by
  refine ⟨by simp [claimsOf], rfl, ?_⟩
  simp only [main, h1, h2, h3, jwtEncode, h4, signingInput]
  exact ⟨_, rfl⟩

theorem token_lifetime_600_witness :
    demoArgv[1]? = some "Iv1.abc123" ∧ demoArgv[2]? = some "key.pem" ∧
    demoFs "key.pem" = some "PEMKEY" ∧
    demoCrypto.parseKey "PEMKEY" = some () ∧
    ((claimsOf "Iv1.abc123" 1700000000).exp -
        (claimsOf "Iv1.abc123" 1700000000).iat = 600 ∧
      (claimsOf "Iv1.abc123" 1700000000).iat = 1700000000 ∧
      ∃ sigSeg : String,
        (main demoCrypto demoArgv demoFs 1700000000).stdout =
          "JWT=" ++ (encodeSegment (strBytes headerJson) ++ "." ++
            encodeSegment (strBytes (payloadJson
              (claimsOf "Iv1.abc123" 1700000000))) ++ "." ++ sigSeg) ++ "\n") :=
  ⟨rfl, rfl, rfl, rfl,
    token_lifetime_600 demoCrypto demoArgv demoFs 1700000000
      "Iv1.abc123" "key.pem" "PEMKEY" () rfl rfl rfl rfl⟩

/-- C2: the issuer claim embedded in the generated token's payload is
exactly the caller-supplied app_id string, untransformed: the payload
segment of the printed token encodes the claims set whose iss field is
the string taken verbatim from argv. -/
theorem issuer_claim_verbatim {K : Type} (c : Crypto K) (argv : List String)
    (fs : String → Option String) (now : Nat) (a p key : String) (k : K)
    (h1 : argv[1]? = some a) (h2 : argv[2]? = some p)
    (h3 : fs p = some key) (h4 : c.parseKey key = some k) :
    (claimsOf a now).iss = a ∧
    ∃ sigSeg : String,
      (main c argv fs now).stdout =
        "JWT=" ++ (encodeSegment (strBytes headerJson) ++ "." ++
          encodeSegment (strBytes (payloadJson (claimsOf a now))) ++ "." ++
          sigSeg) ++ "\n" := by
  refine ⟨rfl, ?_⟩
  simp only [main, h1, h2, h3, jwtEncode, h4, signingInput]
  exact ⟨_, rfl⟩

theorem issuer_claim_verbatim_witness :
    demoArgv[1]? = some "Iv1.abc123" ∧ demoArgv[2]? = some "key.pem" ∧
    demoFs "key.pem" = some "PEMKEY" ∧
    demoCrypto.parseKey "PEMKEY" = some () ∧
    ((claimsOf "Iv1.abc123" 1700000000).iss = "Iv1.abc123" ∧
      ∃ sigSeg : String,
        (main demoCrypto demoArgv demoFs 1700000000).stdout =
          "JWT=" ++ (encodeSegment (strBytes headerJson) ++ "." ++
            encodeSegment (strBytes (payloadJson
              (claimsOf "Iv1.abc123" 1700000000))) ++ "." ++ sigSeg) ++ "\n") :=
  ⟨rfl, rfl, rfl, rfl,
    issuer_claim_verbatim demoCrypto demoArgv demoFs 1700000000
      "Iv1.abc123" "key.pem" "PEMKEY" () rfl rfl rfl rfl⟩

/-- C3: when the file system refuses to read the key path (missing,
unreadable, or a directory), the run fails with the file-access error
before any token is produced: empty stdout, non-zero exit status, the
error surfaced on stderr and not retried. -/
theorem unreadable_key_fails {K : Type} (c : Crypto K) (argv : List String)
    (fs : String → Option String) (now : Nat) (a p : String)
    (h1 : argv[1]? = some a) (h2 : argv[2]? = some p)
    (h3 : fs p = none) :
    main c argv fs now = failRun Err.fileAccessError ∧
    (main c argv fs now).stdout = "" ∧
    (main c argv fs now).exitCode ≠ 0 ∧
    (main c argv fs now).stderr = errMessage Err.fileAccessError := by
  have h : main c argv fs now = failRun Err.fileAccessError := by
    simp only [main, h1, h2, h3]
  exact ⟨h, by rw [h]; rfl, by rw [h]; decide, by rw [h]; rfl⟩

theorem unreadable_key_fails_witness :
    demoArgv[1]? = some "Iv1.abc123" ∧ demoArgv[2]? = some "key.pem" ∧
    (fun _ : String => (none : Option String)) "key.pem" = none ∧
    (main demoCrypto demoArgv (fun _ => none) 1700000000 =
        failRun Err.fileAccessError ∧
      (main demoCrypto demoArgv (fun _ => none) 1700000000).stdout = "" ∧
      (main demoCrypto demoArgv (fun _ => none) 1700000000).exitCode ≠ 0 ∧
      (main demoCrypto demoArgv (fun _ => none) 1700000000).stderr =
        errMessage Err.fileAccessError) :=
  ⟨rfl, rfl, rfl,
    unreadable_key_fails demoCrypto demoArgv (fun _ => none) 1700000000
      "Iv1.abc123" "key.pem" rfl rfl rfl⟩

/-- C4: when the key file's content is not a valid RSA private key, the
run fails with the signing error and no token is returned or printed:
empty stdout, non-zero exit status, the error surfaced on stderr. -/
theorem invalid_key_fails {K : Type} (c : Crypto K) (argv : List String)
    (fs : String → Option String) (now : Nat) (a p key : String)
    (h1 : argv[1]? = some a) (h2 : argv[2]? = some p)
    (h3 : fs p = some key) (h4 : c.parseKey key = none) :
    main c argv fs now = failRun Err.signingError ∧
    (main c argv fs now).stdout = "" ∧
    (main c argv fs now).exitCode ≠ 0 ∧
    (main c argv fs now).stderr = errMessage Err.signingError := by
  have h : main c argv fs now = failRun Err.signingError := by
    simp only [main, h1, h2, h3, jwtEncode, h4]
  exact ⟨h, by rw [h]; rfl, by rw [h]; decide, by rw [h]; rfl⟩

theorem invalid_key_fails_witness :
    demoArgv[1]? = some "Iv1.abc123" ∧ demoArgv[2]? = some "key.pem" ∧
    (fun _ : String => some "hello world") "key.pem" = some "hello world" ∧
    demoCrypto.parseKey "hello world" = none ∧
    (main demoCrypto demoArgv (fun _ => some "hello world") 1700000000 =
        failRun Err.signingError ∧
      (main demoCrypto demoArgv (fun _ => some "hello world")
          1700000000).stdout = "" ∧
      (main demoCrypto demoArgv (fun _ => some "hello world")
          1700000000).exitCode ≠ 0 ∧
      (main demoCrypto demoArgv (fun _ => some "hello world")
          1700000000).stderr = errMessage Err.signingError) :=
  ⟨rfl, rfl, rfl, rfl,
    invalid_key_fails demoCrypto demoArgv (fun _ => some "hello world")
      1700000000 "Iv1.abc123" "key.pem" "hello world" rfl rfl rfl rfl⟩

/-- C5: with fewer than two command-line arguments (sys.argv holds at
most the script name and one argument), the run fails with the
argument error: non-zero exit status, nothing on stdout, a diagnostic
on stderr. -/
theorem missing_arguments_fail {K : Type} (c : Crypto K) (argv : List String)
    (fs : String → Option String) (now : Nat)
    (h : argv.length ≤ 2) :
    main c argv fs now = failRun Err.argumentError ∧
    (main c argv fs now).exitCode ≠ 0 ∧
    (main c argv fs now).stdout = "" ∧
    (main c argv fs now).stderr ≠ "" := by
  have h2 : argv[2]? = none := List.getElem?_eq_none h
  have hm : main c argv fs now = failRun Err.argumentError := by
    cases h1 : argv[1]? with
    | none => simp only [main, h1]
    | some a => simp only [main, h1, h2]
  refine ⟨hm, by rw [hm]; decide, by rw [hm]; rfl, by rw [hm]; exact errMessage_ne_empty Err.argumentError⟩

theorem missing_arguments_fail_witness :
    ([ "generate_jwt.py", "Iv1.abc123" ] : List String).length ≤ 2 ∧
    (main demoCrypto ["generate_jwt.py", "Iv1.abc123"] demoFs 1700000000 =
        failRun Err.argumentError ∧
      (main demoCrypto ["generate_jwt.py", "Iv1.abc123"] demoFs
          1700000000).exitCode ≠ 0 ∧
      (main demoCrypto ["generate_jwt.py", "Iv1.abc123"] demoFs
          1700000000).stdout = "" ∧
      (main demoCrypto ["generate_jwt.py", "Iv1.abc123"] demoFs
          1700000000).stderr ≠ "") :=
  ⟨by decide,
    missing_arguments_fail demoCrypto ["generate_jwt.py", "Iv1.abc123"]
      demoFs 1700000000 (by decide)⟩

/-- C6: on every successful run (both arguments present, key file
readable, key text a valid RSA private key) the program exits with
status 0, writes nothing to stderr, and prints the single line
JWT=<token>, where the token contains exactly two dot separators and
no newline. -/
theorem success_output_format {K : Type} (c : Crypto K) (argv : List String)
    (fs : String → Option String) (now : Nat) (a p key : String) (k : K)
    (h1 : argv[1]? = some a) (h2 : argv[2]? = some p)
    (h3 : fs p = some key) (h4 : c.parseKey key = some k) :
    (main c argv fs now).exitCode = 0 ∧
    (main c argv fs now).stderr = "" ∧
    ∃ token : String,
      (main c argv fs now).stdout = "JWT=" ++ token ++ "\n" ∧
      token.data.count '.' = 2 ∧
      '\n' ∉ token.data := by
  simp only [main, h1, h2, h3, jwtEncode, h4]
  exact ⟨trivial, trivial, _, rfl, token_count_dot _ _, token_no_newline _ _⟩

theorem success_output_format_witness :
    demoArgv[1]? = some "Iv1.abc123" ∧ demoArgv[2]? = some "key.pem" ∧
    demoFs "key.pem" = some "PEMKEY" ∧
    demoCrypto.parseKey "PEMKEY" = some () ∧
    ((main demoCrypto demoArgv demoFs 1700000000).exitCode = 0 ∧
      (main demoCrypto demoArgv demoFs 1700000000).stderr = "" ∧
      ∃ token : String,
        (main demoCrypto demoArgv demoFs 1700000000).stdout =
          "JWT=" ++ token ++ "\n" ∧
        token.data.count '.' = 2 ∧
        '\n' ∉ token.data) :=
  ⟨rfl, rfl, rfl, rfl,
    success_output_format demoCrypto demoArgv demoFs 1700000000
      "Iv1.abc123" "key.pem" "PEMKEY" () rfl rfl rfl rfl⟩

/-- C7: every run is atomic at the user-visible boundary: it either
fully succeeds, printing exactly one line on stdout and nothing on
stderr with exit status 0, or fully fails, printing nothing on stdout,
exiting non-zero, with a diagnostic on stderr. -/
theorem run_atomic {K : Type} (c : Crypto K) (argv : List String)
    (fs : String → Option String) (now : Nat) :
    ((main c argv fs now).exitCode = 0 ∧
      (main c argv fs now).stderr = "" ∧
      ∃ token : String,
        (main c argv fs now).stdout = "JWT=" ++ token ++ "\n" ∧
        '\n' ∉ token.data) ∨
    ((main c argv fs now).exitCode ≠ 0 ∧
      (main c argv fs now).stdout = "" ∧
      (main c argv fs now).stderr ≠ "") := by
  cases h1 : argv[1]? with
  | none =>
      right
      simp only [main, h1]
      exact ⟨by decide, rfl, errMessage_ne_empty Err.argumentError⟩
  | some a =>
  cases h2 : argv[2]? with
  | none =>
      right
      simp only [main, h1, h2]
      exact ⟨by decide, rfl, errMessage_ne_empty Err.argumentError⟩
  | some p =>
  cases h3 : fs p with
  | none =>
      right
      simp only [main, h1, h2, h3]
      exact ⟨by decide, rfl, errMessage_ne_empty Err.fileAccessError⟩
  | some key =>
  cases h4 : c.parseKey key with
  | none =>
      right
      simp only [main, h1, h2, h3, jwtEncode, h4]
      exact ⟨by decide, rfl, errMessage_ne_empty Err.signingError⟩
  | some k =>
      left
      simp only [main, h1, h2, h3, jwtEncode, h4]
      exact ⟨trivial, trivial, _, rfl, token_no_newline _ _⟩

/-- C8: token generation is deterministic in its inputs and the
captured timestamp: two runs seeing the same app_id, the same key file
content and the same integer timestamp produce identical results,
including a byte-identical token on stdout. -/
theorem deterministic_generation {K : Type} (c : Crypto K)
    (argv1 argv2 : List String) (fs1 fs2 : String → Option String)
    (now : Nat) (a p1 p2 key : String)
    (h1 : argv1[1]? = some a) (h2 : argv2[1]? = some a)
    (h3 : argv1[2]? = some p1) (h4 : argv2[2]? = some p2)
    (h5 : fs1 p1 = some key) (h6 : fs2 p2 = some key) :
    main c argv1 fs1 now = main c argv2 fs2 now := by
  simp only [main, h1, h2, h3, h4, h5, h6]

theorem deterministic_generation_witness :
    demoArgv[1]? = some "Iv1.abc123" ∧
    (["run.py", "Iv1.abc123", "other.pem"] : List String)[1]? =
      some "Iv1.abc123" ∧
    demoArgv[2]? = some "key.pem" ∧
    (["run.py", "Iv1.abc123", "other.pem"] : List String)[2]? =
      some "other.pem" ∧
    demoFs "key.pem" = some "PEMKEY" ∧
    (fun p => if p = "other.pem" then some "PEMKEY" else none) "other.pem" =
      some "PEMKEY" ∧
    main demoCrypto demoArgv demoFs 1700000000 =
      main demoCrypto ["run.py", "Iv1.abc123", "other.pem"]
        (fun p => if p = "other.pem" then some "PEMKEY" else none)
        1700000000 :=
  ⟨rfl, rfl, rfl, rfl, rfl, rfl,
    deterministic_generation demoCrypto demoArgv
      ["run.py", "Iv1.abc123", "other.pem"] demoFs
      (fun p => if p = "other.pem" then some "PEMKEY" else none)
      1700000000 "Iv1.abc123" "key.pem" "other.pem" "PEMKEY"
      rfl rfl rfl rfl rfl rfl⟩

/-- C9: the empty string is accepted as app_id: with a readable and
valid key, the run whose first argument is the empty string succeeds
with exit status 0 and embeds the empty string as the issuer claim of
the printed token's payload. -/
theorem empty_app_id_accepted {K : Type} (c : Crypto K)
    (prog p key : String) (fs : String → Option String) (now : Nat) (k : K)
    (h3 : fs p = some key) (h4 : c.parseKey key = some k) :
    (main c [prog, "", p] fs now).exitCode = 0 ∧
    (claimsOf "" now).iss = "" ∧
    ∃ sigSeg : String,
      (main c [prog, "", p] fs now).stdout =
        "JWT=" ++ (encodeSegment (strBytes headerJson) ++ "." ++
          encodeSegment (strBytes (payloadJson (claimsOf "" now))) ++ "." ++
          sigSeg) ++ "\n" := by
  have h1 : ([prog, "", p] : List String)[1]? = some "" := rfl
  have h2 : ([prog, "", p] : List String)[2]? = some p := rfl
  simp only [main, h1, h2, h3, jwtEncode, h4, signingInput]
  exact ⟨trivial, rfl, _, rfl⟩

theorem empty_app_id_accepted_witness :
    demoFs "key.pem" = some "PEMKEY" ∧
    demoCrypto.parseKey "PEMKEY" = some () ∧
    ((main demoCrypto ["generate_jwt.py", "", "key.pem"] demoFs
        1700000000).exitCode = 0 ∧
      (claimsOf "" 1700000000).iss = "" ∧
      ∃ sigSeg : String,
        (main demoCrypto ["generate_jwt.py", "", "key.pem"] demoFs
            1700000000).stdout =
          "JWT=" ++ (encodeSegment (strBytes headerJson) ++ "." ++
            encodeSegment (strBytes (payloadJson (claimsOf "" 1700000000))) ++
            "." ++ sigSeg) ++ "\n") :=
  ⟨rfl, rfl,
    empty_app_id_accepted demoCrypto "generate_jwt.py" "key.pem" "PEMKEY"
      demoFs 1700000000 () rfl rfl⟩

/-- C10: extra command-line arguments beyond the first two are
silently ignored: the run with any further arguments appended behaves
exactly as the run with only the first two. -/
theorem extra_arguments_ignored {K : Type} (c : Crypto K)
    (prog a p : String) (extra : List String)
    (fs : String → Option String) (now : Nat) :
    main c (prog :: a :: p :: extra) fs now = main c [prog, a, p] fs now := by
  have h1 : (prog :: a :: p :: extra)[1]? = some a := rfl
  have h2 : (prog :: a :: p :: extra)[2]? = some p := by simp
  have h3 : ([prog, a, p] : List String)[1]? = some a := rfl
  have h4 : ([prog, a, p] : List String)[2]? = some p := rfl
  simp only [main, h1, h2, h3, h4]

end GenerateJwt
